import Mathlib

/-!
Shallow embedding of the `lens` Go tracing library (package `lens`,
files `lens.go`, `tracer.go`, and the filter file) for verifying the
natural-language specification against the code.

Modelling conventions:
* `time.Now().UnixNano()` readings are modelled by an explicit clock
  `clock : Nat → Nat` indexed by the sequence number of the reading
  inside the execution; every place the Go code reads the clock consumes
  one index.  Monotonicity of the clock is an explicit hypothesis where
  a property needs it.
* Go `interface{}` values carried by events are modelled by the opaque
  value type `GoVal`.
* Dispatching an event means passing it to `TracerImpl.TraceEvent`
  (the Go method of the same name); the writes issued by the
  fire-and-forget dispatch loop are modelled as the list of
  (writer handle, event) pairs in writer order.
* Go's `path/filepath.Match` (standard library, not part of this
  repository) is modelled by `goMatch`: literals, `*`, `?`, `\`
  escapes and `[...]` / `[^...]` character classes; a malformed
  pattern yields `false`, matching the repository's treatment of
  `ErrBadPattern` (`matched, _ := filepath.Match(...)` is `false` on
  error).
-/

namespace Lens

/-- Opaque, type-erased Go `interface{}` value as carried in event fields.
`verr` models a non-nil Go `error` value with its message. -/
inductive GoVal where
  | vnil
  | vint (n : Int)
  | vbool (b : Bool)
  | vstr (s : String)
  | verr (msg : String)
  deriving DecidableEq, Repr

/-- Go `EventType` from `lens.go` (string constants `variable_read` … `panic`). -/
inductive EventType where
  | variableRead
  | variableWrite
  | functionCall
  | functionReturn
  | methodCall
  | fieldAccess
  | sliceOperation
  | mapOperation
  | channelOperation
  | error
  | panic
  deriving DecidableEq, Repr

/-- Go `Level` from `lens.go` (`LevelOff` … `LevelTrace`). -/
inductive Level where
  | off
  | error
  | warn
  | info
  | debug
  | trace
  deriving DecidableEq, Repr

/-- Go `SourceLocation` from `lens.go`. -/
structure SourceLocation where
  file : String := ""
  line : Int := 0
  function : String := ""
  deriving DecidableEq, Repr

/-- Go `Event` from `lens.go`.  Field defaults are the Go zero values.
The Go field `Variable` is rendered `varName` (`variable` is reserved
in Lean); timestamps are `UnixNano` naturals and `Duration` is an
`Int` of nanoseconds like Go's `time.Duration`.  Note the record has
no field for span tags. -/
structure Event where
  id : String := ""
  traceID : String := ""
  timestamp : Nat := 0
  type : EventType := EventType.functionCall
  component : String := ""
  function : String := ""
  varName : String := ""
  oldValue : GoVal := GoVal.vnil
  newValue : GoVal := GoVal.vnil
  arguments : List GoVal := []
  returnValue : List GoVal := []
  error : String := ""
  duration : Int := 0
  stackTrace : List String := []
  goroutine : Int := 0
  sourceFile : String := ""
  sourceLine : Int := 0
  sourceFunction : String := ""
  callerFile : String := ""
  callerLine : Int := 0
  callerFunction : String := ""
  deriving DecidableEq, Repr

/-- Go `generateEventID` from `tracer.go`: `fmt.Sprintf("evt_%d",
time.Now().UnixNano())`, as a function of the nanosecond reading. -/
def generateEventID (unixNano : Nat) : String :=
  "evt_" ++ Nat.repr unixNano

/-- Go `generateTraceID` from `tracer.go`: `fmt.Sprintf("trace_%d",
time.Now().UnixNano())`, as a function of the nanosecond reading. -/
def generateTraceID (unixNano : Nat) : String :=
  "trace_" ++ Nat.repr unixNano

/-- One endpoint of a character-class range in a glob pattern, with
`\` escapes; `-` and `]` cannot start an endpoint (Go `getEsc`). -/
def getEscChar : List Char → Option (Char × List Char)
  | [] => none
  | '-' :: _ => none
  | ']' :: _ => none
  | '\\' :: [] => none
  | '\\' :: c :: rest => some (c, rest)
  | c :: rest => some (c, rest)

/-- Scan the body of a `[...]` character class (after any `^`),
returning the collected ranges and the pattern after the closing `]`,
or `none` when the class is malformed.  `fuel` bounds the recursion;
`cs.length + 1` always suffices since each step consumes input. -/
def scanClass : Nat → List Char → List (Char × Char) → Option (List (Char × Char) × List Char)
  | 0, _, _ => none
  | _ + 1, ']' :: rest, acc =>
      match acc with
      | [] => none
      | _ => some (acc.reverse, rest)
  | fuel + 1, cs, acc =>
      match getEscChar cs with
      | none => none
      | some (lo, rest₁) =>
          match rest₁ with
          | '-' :: rest₂ =>
              match getEscChar rest₂ with
              | none => none
              | some (hi, rest₃) => scanClass fuel rest₃ ((lo, hi) :: acc)
          | _ => scanClass fuel rest₁ ((lo, lo) :: acc)

/-- Does character `c` fall in one of the class ranges? -/
def inClass : List (Char × Char) → Char → Bool
  | [], _ => false
  | (lo, hi) :: rest, c => (lo.toNat ≤ c.toNat && c.toNat ≤ hi.toNat) || inClass rest c

/-- Fuelled worker for `goMatch`.  `*` matches any run of non-`/`
characters, `?` one non-`/` character, `\c` the literal `c`,
`[...]`/`[^...]` a character class; otherwise literal match.  A
malformed pattern (trailing `\`, unterminated or empty class) gives
`false`.  Every recursive call shrinks pattern + name, so fuel
`ps.length + ns.length + 1` is never exhausted. -/
def goMatchAux : Nat → List Char → List Char → Bool
  | 0, _, _ => false
  | _ + 1, [], [] => true
  | _ + 1, [], _ :: _ => false
  | fuel + 1, '*' :: ps, ns =>
      goMatchAux fuel ps ns ||
        (match ns with
         | [] => false
         | c :: ns' => decide (c ≠ '/') && goMatchAux fuel ('*' :: ps) ns')
  | fuel + 1, '?' :: ps, c :: ns => decide (c ≠ '/') && goMatchAux fuel ps ns
  | _ + 1, '?' :: _, [] => false
  | fuel + 1, '\\' :: p :: ps, c :: ns => decide (p = c) && goMatchAux fuel ps ns
  | _ + 1, '\\' :: _, _ => false
  | fuel + 1, '[' :: '^' :: ps, c :: ns =>
      (match scanClass (ps.length + 1) ps [] with
       | some (ranges, rest) => !inClass ranges c && goMatchAux fuel rest ns
       | none => false)
  | fuel + 1, '[' :: ps, c :: ns =>
      (match scanClass (ps.length + 1) ps [] with
       | some (ranges, rest) => inClass ranges c && goMatchAux fuel rest ns
       | none => false)
  | _ + 1, '[' :: _, [] => false
  | fuel + 1, p :: ps, c :: ns => decide (p = c) && goMatchAux fuel ps ns
  | _ + 1, _ :: _, [] => false

/-- Model of Go's `path/filepath.Match(pattern, name)` with the error
result collapsed to `false`, exactly how every call site in the
repository uses it (`matched, _ := filepath.Match(...)`). -/
def goMatch (pattern name : String) : Bool :=
  goMatchAux (pattern.data.length + name.data.length + 1) pattern.data name.data

/-- One step of the Go `for … range patterns` loops in the filters:
returns `true` as soon as a pattern matches `s`. -/
def anyPatternMatches : List String → String → Bool
  | [], _ => false
  | p :: ps, s => if goMatch p s then true else anyPatternMatches ps s

/-- Go `PackageFilter` from the filter file. -/
structure PackageFilter where
  includePatterns : List String := []
  excludePatterns : List String := []

/-- Go `PackageFilter.ShouldTrace`: empty component always passes; any
matching exclude pattern rejects; empty include list accepts; else
accept only on an include match. -/
def PackageFilter.ShouldTrace (f : PackageFilter) (event : Event) : Bool :=
  let component := event.component
  if component = "" then true
  else if anyPatternMatches f.excludePatterns component then false
  else if f.includePatterns.length = 0 then true
  else anyPatternMatches f.includePatterns component

/-- The Go `Filter` interface: anything with `ShouldTrace(Event) bool`. -/
structure Filter where
  shouldTrace : Event → Bool

/-- Go `CompositeFilter` from the filter file: an ordered list of
sub-filters combined with AND logic. -/
structure CompositeFilter where
  filters : List Filter

/-- The `for … range f.filters` loop of `CompositeFilter.ShouldTrace`:
return `false` at the first rejecting sub-filter, else `true`. -/
def compositeLoop : List Filter → Event → Bool
  | [], _ => true
  | f :: fs, e => if !(f.shouldTrace e) then false else compositeLoop fs e

/-- Go `CompositeFilter.ShouldTrace`: all filters must pass. -/
def CompositeFilter.ShouldTrace (f : CompositeFilter) (event : Event) : Bool :=
  compositeLoop f.filters event

/-- Go `TracerImpl` from `tracer.go`.  Writers are Go interface values of
which dispatch only uses the identity of each sink, so they are
modelled by opaque `Nat` handles; the `sync.RWMutex` field guards the
concurrent mutation of this record and has no sequential content. -/
structure TracerImpl where
  level : Level := Level.info
  enabled : Bool := true
  writers : List Nat := []
  filters : List Filter := []

/-- Execution environment of one goroutine: the nanosecond clock
indexed by reading number, and the value `getGoroutineID` returns
(`runtime.NumGoroutine()` in the source). -/
structure Env where
  clock : Nat → Nat
  goroutineID : Int := 0

/-- The `for … range t.filters` loop of `TracerImpl.TraceEvent`:
the method returns (dropping the event) at the first rejecting
filter. -/
def filterLoop : List Filter → Event → Bool
  | [], _ => true
  | f :: fs, e => if !(f.shouldTrace e) then false else filterLoop fs e

/-- Go `TracerImpl.TraceEvent` from `tracer.go`: no-op when disabled;
otherwise run the filter loop and, if the event survives, issue one
(fire-and-forget) write per registered writer, in writer order.  The
result is the list of issued writes. -/
def TracerImpl.TraceEvent (t : TracerImpl) (event : Event) : List (Nat × Event) :=
  if !t.enabled then []
  else if filterLoop t.filters event then t.writers.map (fun w => (w, event)) else []

/-- Go `TracerImpl.SetLevel` from `tracer.go`. -/
def TracerImpl.SetLevel (t : TracerImpl) (level : Level) : TracerImpl :=
  { t with level := level }

/-- Go `TracerImpl.AddWriter` from `tracer.go`. -/
def TracerImpl.AddWriter (t : TracerImpl) (writer : Nat) : TracerImpl :=
  { t with writers := t.writers ++ [writer] }

/-- Go `TracerImpl.AddFilter` from `tracer.go`. -/
def TracerImpl.AddFilter (t : TracerImpl) (filter : Filter) : TracerImpl :=
  { t with filters := t.filters ++ [filter] }

/-- Go `TracerImpl.Enable` from `tracer.go`. -/
def TracerImpl.Enable (t : TracerImpl) : TracerImpl :=
  { t with enabled := true }

/-- Go `TracerImpl.Disable` from `tracer.go`. -/
def TracerImpl.Disable (t : TracerImpl) : TracerImpl :=
  { t with enabled := false }

/-- Go `SpanImpl` from `tracer.go`.  The Go `tags map[string]interface{}`
is modelled as an association list with last-write-wins update; the
`tracer *TracerImpl` back pointer is passed explicitly where `End`
dispatches. -/
structure SpanImpl where
  name : String := ""
  startTime : Nat := 0
  traceID : String := ""
  tags : List (String × GoVal) := []
  error : Option String := none

/-- Go `TracerImpl.StartSpan` from `tracer.go`: captures the start time
(clock reading `k`) and a fresh trace id (clock reading `k+1`). -/
def TracerImpl.StartSpan (_t : TracerImpl) (name : String) (env : Env) (k : Nat) : SpanImpl :=
  { name := name
    startTime := env.clock k
    traceID := generateTraceID (env.clock (k + 1))
    tags := []
    error := none }

/-- Last-write-wins insertion into the tags association list,
modelling `s.tags[key] = value`. -/
def insertTag : List (String × GoVal) → String → GoVal → List (String × GoVal)
  | [], key, value => [(key, value)]
  | (k', v') :: rest, key, value =>
      if k' = key then (key, value) :: rest else (k', v') :: insertTag rest key value

/-- Go `SpanImpl.SetTag` from `tracer.go`. -/
def SpanImpl.SetTag (s : SpanImpl) (key : String) (value : GoVal) : SpanImpl :=
  { s with tags := insertTag s.tags key value }

/-- Go `SpanImpl.SetError` from `tracer.go`. -/
def SpanImpl.SetError (s : SpanImpl) (err : String) : SpanImpl :=
  { s with error := some err }

/-- The event built and dispatched by `SpanImpl.End` from `tracer.go`:
duration from `time.Since(s.startTime)` (clock reading `k`), a fresh
event id (reading `k+1`), the timestamp (reading `k+2`); the type is
`FunctionReturn`, overridden to `Error` with the error text when an
error was set.  The span's tags are not consulted. -/
def SpanImpl.End (s : SpanImpl) (env : Env) (k : Nat) : Event :=
  let duration : Int := (env.clock k : Int) - (s.startTime : Int)
  let base : Event :=
    { id := generateEventID (env.clock (k + 1))
      traceID := s.traceID
      timestamp := env.clock (k + 2)
      type := EventType.functionReturn
      function := s.name
      duration := duration
      goroutine := env.goroutineID }
  match s.error with
  | some msg => { base with error := msg, type := EventType.error }
  | none => base

/-- Outcome of running a Go function body: a normal return-value list,
or a panic unwinding with a message. -/
inductive FuncOutcome where
  | normal (results : List GoVal)
  | panics (msg : String)
  deriving DecidableEq, Repr

/-- A Go function value handed to `Wrap`/`WrapWithName`.
`runtimeName` is what `runtime.FuncForPC(pc).Name()` reports (`none`
when `FuncForPC` returns nil); `impl` is the function's behaviour on
an argument list. -/
structure GoFunc where
  runtimeName : Option String
  impl : List GoVal → FuncOutcome

/-- The closure state created by `wrapFunction` in `tracer.go`: the
original function, the wrap name, and — decisive for the source
location contract — the source/caller locations resolved once via
`getSourceLocation(2)` / `getCallerLocation(2)` when `wrapFunction`
ran, lines 213-215 of `tracer.go`. -/
structure WrappedFunc where
  fn : GoFunc
  name : String
  wrapSource : SourceLocation
  wrapCaller : SourceLocation

/-- Go `wrapFunction` from `tracer.go` (the wrap step itself; the
per-invocation behaviour of the returned `reflect.MakeFunc` proxy is
`callWrapped`).  The closure also captures the tracer by pointer, so
invocations consult the tracer state current at call time; hence the
tracer is a parameter of `callWrapped`, not stored here. -/
def wrapFunction (_t : TracerImpl) (fn : GoFunc) (name : String)
    (wrapSource wrapCaller : SourceLocation) : WrappedFunc :=
  { fn := fn, name := name, wrapSource := wrapSource, wrapCaller := wrapCaller }

/-- Result of one invocation of a traced proxy: the events passed to
`TraceEvent` in order, the outcome observed by the direct caller, and
the writes the dispatches issued. -/
structure InvocationResult where
  dispatched : List Event
  outcome : FuncOutcome
  writes : List (Nat × Event)

/-- One invocation of the proxy returned by `wrapFunction`
(`tracer.go` lines 218-298).  `invokeSource`/`invokeCaller` are the
locations a fresh `getSourceLocation`/`getCallerLocation` would
resolve at this specific call site; the source instead uses the
locations captured at wrap time (line 236: `sourceLocation :=
wrapSourceLocation`), so these parameters are not consulted.  Clock
readings in source order: trace id (`k`), call-event id (`k+1`),
call-event timestamp (`k+2`), `start` (`k+3`), `time.Since(start)`
(`k+4`), return-event id (`k+5`), return-event timestamp (`k+6`).
There is no `recover`: a panic in the original unwinds after the call
event, dispatching no further event. -/
def callWrapped (t : TracerImpl) (w : WrappedFunc)
    (_invokeSource _invokeCaller : SourceLocation) (args : List GoVal)
    (env : Env) (k : Nat) : InvocationResult :=
  let funcName :=
    match w.fn.runtimeName with
    | some n => n
    | none => w.name
  let sourceLocation := w.wrapSource
  let callerLocation := w.wrapCaller
  let traceID := generateTraceID (env.clock k)
  let callEvent : Event :=
    { id := generateEventID (env.clock (k + 1))
      traceID := traceID
      timestamp := env.clock (k + 2)
      type := EventType.functionCall
      component := w.name
      function := funcName
      arguments := args
      goroutine := env.goroutineID
      sourceFile := sourceLocation.file
      sourceLine := sourceLocation.line
      sourceFunction := sourceLocation.function
      callerFile := callerLocation.file
      callerLine := callerLocation.line
      callerFunction := callerLocation.function }
  let callWrites := t.TraceEvent callEvent
  let start := env.clock (k + 3)
  match w.fn.impl args with
  | FuncOutcome.panics msg =>
      { dispatched := [callEvent]
        outcome := FuncOutcome.panics msg
        writes := callWrites }
  | FuncOutcome.normal results =>
      let duration : Int := (env.clock (k + 4) : Int) - (start : Int)
      let returnEvent : Event :=
        { id := generateEventID (env.clock (k + 5))
          traceID := traceID
          timestamp := env.clock (k + 6)
          type := EventType.functionReturn
          component := w.name
          function := funcName
          returnValue := results
          duration := duration
          goroutine := env.goroutineID
          sourceFile := sourceLocation.file
          sourceLine := sourceLocation.line
          sourceFunction := sourceLocation.function
          callerFile := callerLocation.file
          callerLine := callerLocation.line
          callerFunction := callerLocation.function }
      { dispatched := [callEvent, returnEvent]
        outcome := FuncOutcome.normal results
        writes := callWrites ++ t.TraceEvent returnEvent }

/-- The closure state built by `structWrapper.createMethodWrapper`
(`tracer.go` lines 128-206): component name `sw.name` and the method
name `fmt.Sprintf("%s.%s", sw.name, method.Name)`. -/
structure MethodWrapper where
  swName : String
  methodName : String
  method : List GoVal → List GoVal

/-- One invocation of a `createMethodWrapper` proxy.  Unlike the
function path, the closure resolves `getSourceLocation(2)` /
`getCallerLocation(2)` inside the invocation (`tracer.go` lines
141-142), so the invocation-site locations are the ones recorded.
Clock readings as in `callWrapped`. -/
def invokeMethodWrapper (t : TracerImpl) (mw : MethodWrapper)
    (invokeSource invokeCaller : SourceLocation) (args : List GoVal)
    (env : Env) (k : Nat) : InvocationResult :=
  let sourceLocation := invokeSource
  let callerLocation := invokeCaller
  let traceID := generateTraceID (env.clock k)
  let callEvent : Event :=
    { id := generateEventID (env.clock (k + 1))
      traceID := traceID
      timestamp := env.clock (k + 2)
      type := EventType.methodCall
      component := mw.swName
      function := mw.methodName
      arguments := args
      goroutine := env.goroutineID
      sourceFile := sourceLocation.file
      sourceLine := sourceLocation.line
      sourceFunction := sourceLocation.function
      callerFile := callerLocation.file
      callerLine := callerLocation.line
      callerFunction := callerLocation.function }
  let callWrites := t.TraceEvent callEvent
  let start := env.clock (k + 3)
  let results := mw.method args
  let duration : Int := (env.clock (k + 4) : Int) - (start : Int)
  let returnEvent : Event :=
    { id := generateEventID (env.clock (k + 5))
      traceID := traceID
      timestamp := env.clock (k + 6)
      type := EventType.functionReturn
      component := mw.swName
      function := mw.methodName
      returnValue := results
      duration := duration
      goroutine := env.goroutineID
      sourceFile := sourceLocation.file
      sourceLine := sourceLocation.line
      sourceFunction := sourceLocation.function
      callerFile := callerLocation.file
      callerLine := callerLocation.line
      callerFunction := callerLocation.function }
  { dispatched := [callEvent, returnEvent]
    outcome := FuncOutcome.normal results
    writes := callWrites ++ t.TraceEvent returnEvent }

/-- A Go `interface{}` value as classified by `reflect.TypeOf(obj)`
and `.Kind()` in `WrapWithName`.  `nilInterface` is the `objType ==
nil` case; the `payload` tokens identify the underlying value so that
"returned unchanged" is expressible; the pointer case carries its
`reflect.Value.IsNil()` flag. -/
inductive GoObj where
  | nilInterface
  | ptrObj (payload : Nat) (isNil : Bool)
  | structObj (payload : Nat)
  | funcObj (f : GoFunc)
  | ifaceObj (payload : Nat)
  | sliceObj (payload : Nat)
  | mapObj (payload : Nat)
  | chanObj (payload : Nat)
  | basicObj (v : GoVal)

/-- What `WrapWithName` returns: the original object itself, or the
proxy produced by `wrapFunction`. -/
inductive WrapResult where
  | passthrough (obj : GoObj)
  | proxy (w : WrappedFunc)

/-- A wrap call's full observable behaviour: its return value and the
events it passes to `TraceEvent` while wrapping (none of the wrap
functions in `tracer.go` contains a `TraceEvent` call, so every
branch records `[]`). -/
structure WrapOutcome where
  result : WrapResult
  dispatched : List Event

/-- Go `wrapPointer` from `tracer.go`: the nil and the non-nil branch
both return the original pointer ("return the original pointer
without deep wrapping"). -/
def wrapPointer (_t : TracerImpl) (payload : Nat) (isNil : Bool)
    (_name : String) : WrapOutcome :=
  if isNil then { result := WrapResult.passthrough (GoObj.ptrObj payload isNil), dispatched := [] }
  else { result := WrapResult.passthrough (GoObj.ptrObj payload isNil), dispatched := [] }

/-- Go `wrapStruct` from `tracer.go`: returns the original struct; the
`structWrapper` machinery is never invoked from here. -/
def wrapStruct (_t : TracerImpl) (obj : GoObj) (_name : String) : WrapOutcome :=
  { result := WrapResult.passthrough obj, dispatched := [] }

/-- Go `wrapInterface` from `tracer.go`: returns the object as-is. -/
def wrapInterface (_t : TracerImpl) (obj : GoObj) (_name : String) : WrapOutcome :=
  { result := WrapResult.passthrough obj, dispatched := [] }

/-- Go `wrapSlice` from `tracer.go`: returns the slice as-is. -/
def wrapSlice (_t : TracerImpl) (obj : GoObj) (_name : String) : WrapOutcome :=
  { result := WrapResult.passthrough obj, dispatched := [] }

/-- Go `wrapMap` from `tracer.go`: returns the map as-is. -/
def wrapMap (_t : TracerImpl) (obj : GoObj) (_name : String) : WrapOutcome :=
  { result := WrapResult.passthrough obj, dispatched := [] }

/-- Go `wrapChannel` from `tracer.go`: returns the channel as-is. -/
def wrapChannel (_t : TracerImpl) (obj : GoObj) (_name : String) : WrapOutcome :=
  { result := WrapResult.passthrough obj, dispatched := [] }

/-- Go `TracerImpl.WrapWithName` from `tracer.go`: returns the object
unchanged when the tracer is disabled or `reflect.TypeOf(obj)` is
nil; otherwise dispatches on the kind.  Only the `Func` kind produces
a proxy; pointer, struct, interface, slice, map, channel, and the
default (basic types) all pass the object through.
`wrapSource`/`wrapCaller` are the locations `wrapFunction` resolves
at wrap time. -/
def TracerImpl.WrapWithName (t : TracerImpl) (obj : GoObj) (name : String)
    (wrapSource wrapCaller : SourceLocation) : WrapOutcome :=
  if !t.enabled then { result := WrapResult.passthrough obj, dispatched := [] }
  else
    match obj with
    | GoObj.nilInterface => { result := WrapResult.passthrough obj, dispatched := [] }
    | GoObj.ptrObj payload isNil => wrapPointer t payload isNil name
    | GoObj.structObj _ => wrapStruct t obj name
    | GoObj.funcObj f =>
        { result := WrapResult.proxy (wrapFunction t f name wrapSource wrapCaller)
          dispatched := [] }
    | GoObj.ifaceObj _ => wrapInterface t obj name
    | GoObj.sliceObj _ => wrapSlice t obj name
    | GoObj.mapObj _ => wrapMap t obj name
    | GoObj.chanObj _ => wrapChannel t obj name
    | GoObj.basicObj _ => { result := WrapResult.passthrough obj, dispatched := [] }

/-- Go `TracerImpl.Wrap` from `tracer.go`: `WrapWithName(obj, "")`. -/
def TracerImpl.Wrap (t : TracerImpl) (obj : GoObj)
    (wrapSource wrapCaller : SourceLocation) : WrapOutcome :=
  t.WrapWithName obj "" wrapSource wrapCaller

/-- Fold a list of `SetTag` calls over a span, in order. -/
def applyTags (s : SpanImpl) (ops : List (String × GoVal)) : SpanImpl :=
  List.foldl (fun sp kv => sp.SetTag kv.1 kv.2) s ops

/-! ### Concrete fixtures used by witnesses and counterexamples -/

/-- A tracer as built by `New()` with no writers or filters (enabled). -/
def tEnabled : TracerImpl := { enabled := true }

/-- A disabled tracer. -/
def tDisabled : TracerImpl := { enabled := false }

/-- The source location of a wrapping call site (line 10). -/
def locWrap10 : SourceLocation :=
  { file := "main.go", line := 10, function := "main.main" }

/-- The source location of a later, distinct invocation site (line 99). -/
def locCall99 : SourceLocation :=
  { file := "main.go", line := 99, function := "main.worker" }

/-- An environment whose nanosecond clock advances by one per reading. -/
def env0 : Env := { clock := fun i => i, goroutineID := 1 }

/-- An environment whose nanosecond clock is stuck at 1000: a legal
(monotone) clock in which consecutive readings coincide, as happens
when the clock granularity is coarser than the call rate. -/
def envConst1000 : Env := { clock := fun _ => 1000, goroutineID := 1 }

/-- The pure function `add(2, 3) = 5` of the spec's concrete scenario. -/
def addGoFunc : GoFunc :=
  { runtimeName := some "main.add", impl := fun _ => FuncOutcome.normal [GoVal.vint 5] }

/-- The fixture `addGoFunc` wrapped at the line-10 call site. -/
def wrappedAt10 : WrappedFunc := wrapFunction tEnabled addGoFunc "add" locWrap10 locWrap10

/-- A function whose Go-style failure is a non-nil error return. -/
def failFunc : GoFunc :=
  { runtimeName := some "main.mayFail"
    impl := fun _ => FuncOutcome.normal [GoVal.vnil, GoVal.verr "boom"] }

/-- A function that panics. -/
def panicFunc : GoFunc :=
  { runtimeName := some "main.explode", impl := fun _ => FuncOutcome.panics "kaboom" }

/-- The fixture `failFunc` wrapped at line 10. -/
def wrappedFail : WrappedFunc := wrapFunction tEnabled failFunc "mayFail" locWrap10 locWrap10

/-- The fixture `panicFunc` wrapped at line 10. -/
def wrappedPanic : WrappedFunc := wrapFunction tEnabled panicFunc "explode" locWrap10 locWrap10

/-- A method wrapper as `createMethodWrapper` would build for
`WrapWithName(obj, "user")` and method `Save`. -/
def saveMethod : MethodWrapper :=
  { swName := "user", methodName := "user.Save", method := fun _ => [GoVal.vnil] }

/-- A filter accepting everything. -/
def filterTrue : Filter := { shouldTrace := fun _ => true }

/-- A filter rejecting everything. -/
def filterFalse : Filter := { shouldTrace := fun _ => false }

/-- An event with all fields at their Go zero values. -/
def eventBlank : Event := {}

/-- An event whose component is `"db"`. -/
def dbEvent : Event := { component := "db" }

/-! ### Helper lemmas -/

/-- The composite-filter loop computes the conjunction of the member
verdicts. -/
theorem compositeLoop_eq_all (fs : List Filter) (e : Event) :
    compositeLoop fs e = fs.all (fun f => f.shouldTrace e) := by
  induction fs with
  | nil => rfl
  | cons f fs ih => cases h : f.shouldTrace e <;> simp [compositeLoop, h, ih]

/-- The pattern loop matches exactly when some pattern matches. -/
theorem anyPatternMatches_iff (ps : List String) (s : String) :
    anyPatternMatches ps s = true ↔ ∃ p ∈ ps, goMatch p s = true := by
  induction ps with
  | nil => simp [anyPatternMatches]
  | cons p ps ih => cases h : goMatch p s <;> simp [anyPatternMatches, h, ih]

/-- The pattern loop fails exactly when no pattern matches. -/
theorem anyPatternMatches_eq_false (ps : List String) (s : String) :
    anyPatternMatches ps s = false ↔ ∀ p ∈ ps, goMatch p s = false := by
  induction ps with
  | nil => simp [anyPatternMatches]
  | cons p ps ih => cases h : goMatch p s <;> simp [anyPatternMatches, h, ih]

/-- The model `SpanImpl.End` reads only the span's name, start time, trace id
and error, never the tags, so a fold of `SetTag` updates leaves its
event unchanged. -/
theorem end_applyTags (s : SpanImpl) (ops : List (String × GoVal)) (env : Env) (k : Nat) :
    SpanImpl.End (applyTags s ops) env k = SpanImpl.End s env k := by
  induction ops generalizing s with
  | nil => rfl
  | cons kv ops ih =>
      show SpanImpl.End (applyTags (s.SetTag kv.1 kv.2) ops) env k = SpanImpl.End s env k
      rw [ih]
      cases s
      rfl

/-! ### Claim theorems -/

/-- C6: the configured level is stored but never consulted during
dispatch.  Two tracer states that differ only in the `level` field
(same enabled flag, writers and filters) give `TraceEvent` the same
filtering outcome and the same writes for every event, and applying
`SetLevel` never changes a dispatch outcome: filtering happens solely
through the filter chain. -/
theorem traceEvent_ignores_level (lvl₁ lvl₂ : Level) (enabled : Bool)
    (writers : List Nat) (filters : List Filter) (e : Event) :
    TracerImpl.TraceEvent { level := lvl₁, enabled := enabled, writers := writers, filters := filters } e
      = TracerImpl.TraceEvent { level := lvl₂, enabled := enabled, writers := writers, filters := filters } e
    ∧ ∀ (t : TracerImpl) (lvl : Level),
        TracerImpl.TraceEvent (t.SetLevel lvl) e = TracerImpl.TraceEvent t e :=
  ⟨rfl, fun _ _ => rfl⟩

/-- C7: the composite filter accepts an event iff every sub-filter
accepts it (logical conjunction), and evaluation short-circuits at the
first rejecting sub-filter: whatever follows a rejecting member, the
verdict is already `false`. -/
theorem compositeFilter_conjunction (fs : List Filter) (e : Event) :
    CompositeFilter.ShouldTrace ⟨fs⟩ e = fs.all (fun f => f.shouldTrace e)
    ∧ (CompositeFilter.ShouldTrace ⟨fs⟩ e = true ↔ ∀ f ∈ fs, f.shouldTrace e = true)
    ∧ ∀ (fs₁ : List Filter) (f : Filter) (fs₂ : List Filter),
        f.shouldTrace e = false →
        CompositeFilter.ShouldTrace ⟨fs₁ ++ f :: fs₂⟩ e = false := by
  refine ⟨compositeLoop_eq_all fs e, ?_, ?_⟩
  · rw [CompositeFilter.ShouldTrace, compositeLoop_eq_all]
    simp [List.all_eq_true]
  · intro fs₁ f fs₂ hf
    rw [CompositeFilter.ShouldTrace, compositeLoop_eq_all, List.all_append]
    simp [List.all_cons, hf]

/-- Witness for C7 at a concrete filter list: the sub-filters are
`[accept, reject, accept]` and the composite verdict is `false`. -/
theorem compositeFilter_conjunction_witness :
    CompositeFilter.ShouldTrace ⟨[filterTrue, filterFalse, filterTrue]⟩ eventBlank = false :=
  (compositeFilter_conjunction [filterTrue, filterFalse, filterTrue] eventBlank).2.2
    [filterTrue] filterFalse [filterTrue] rfl

/-- C9: tags attached to a span via `SetTag` never appear in any
emitted event.  For every span and every sequence of `SetTag` calls,
the terminal event `End` builds (and therefore the writes its
dispatch issues) is identical to the one with no `SetTag` calls; the
`Event` record has no field carrying span tags. -/
theorem span_tags_not_emitted (s : SpanImpl) (ops : List (String × GoVal))
    (env : Env) (k : Nat) (t : TracerImpl) :
    SpanImpl.End (applyTags s ops) env k = SpanImpl.End s env k
    ∧ t.TraceEvent (SpanImpl.End (applyTags s ops) env k)
        = t.TraceEvent (SpanImpl.End s env k) :=
  ⟨end_applyTags s ops env k, by rw [end_applyTags]⟩

/-- C5 (refuted by the code): event and trace identifiers are pure
functions of the raw nanosecond timestamp alone — there is no counter
or other disambiguator — so under a legal monotone clock whose
consecutive readings coincide (granularity coarser than the call
rate), two distinct back-to-back generator calls return identical
identifiers. -/
theorem eventID_collision_on_equal_nanos :
    (∀ n : Nat, generateEventID n = "evt_" ++ Nat.repr n
        ∧ generateTraceID n = "trace_" ++ Nat.repr n)
    ∧ ∃ clock : Nat → Nat,
        (∀ i j : Nat, i ≤ j → clock i ≤ clock j)
        ∧ generateEventID (clock 0) = generateEventID (clock 1)
        ∧ generateTraceID (clock 0) = generateTraceID (clock 1) :=
  ⟨fun _ => ⟨rfl, rfl⟩, ⟨fun _ => 1000, fun _ _ _ => le_refl 1000, rfl, rfl⟩⟩

/-- C1 (refuted by the code): for an enabled tracer,
`WrapWithName` on a non-nil pointer-to-struct and on a struct returns
the original object unchanged (a pass-through, not a proxy) and
dispatches nothing; no method ever gets wrapped on this path. -/
theorem wrapWithName_pointer_passthrough :
    TracerImpl.WrapWithName tEnabled (GoObj.ptrObj 7 false) "user" locWrap10 locWrap10
      = { result := WrapResult.passthrough (GoObj.ptrObj 7 false), dispatched := [] }
    ∧ TracerImpl.WrapWithName tEnabled (GoObj.structObj 7) "user" locWrap10 locWrap10
      = { result := WrapResult.passthrough (GoObj.structObj 7), dispatched := [] } :=
  ⟨rfl, rfl⟩

/-- C10: wrapping any value whose kind is not `Func` — nil interface,
pointer, struct, interface, slice, map, channel, basic — returns the
value unchanged and dispatches no event, for every tracer and name;
the same holds for every value when the tracer is disabled; and
`Wrap` is `WrapWithName` with the empty name. -/
theorem wrapWithName_nonfunction_passthrough (t : TracerImpl) (obj : GoObj)
    (name : String) (wrapSource wrapCaller : SourceLocation) :
    ((∀ f : GoFunc, obj ≠ GoObj.funcObj f) →
        t.WrapWithName obj name wrapSource wrapCaller
          = { result := WrapResult.passthrough obj, dispatched := [] })
    ∧ (t.enabled = false →
        t.WrapWithName obj name wrapSource wrapCaller
          = { result := WrapResult.passthrough obj, dispatched := [] })
    ∧ t.Wrap obj wrapSource wrapCaller = t.WrapWithName obj "" wrapSource wrapCaller := by
  refine ⟨?_, ?_, rfl⟩
  · intro h
    cases obj with
    | funcObj f => exact absurd rfl (h f)
    | ptrObj payload isNil =>
        cases he : t.enabled <;>
          simp [TracerImpl.WrapWithName, he, wrapPointer, ite_self]
    | _ =>
        cases he : t.enabled <;>
          simp [TracerImpl.WrapWithName, he, wrapStruct, wrapInterface,
            wrapSlice, wrapMap, wrapChannel]
  · intro he
    simp [TracerImpl.WrapWithName, he]

/-- Witness for C10: an enabled tracer passes a slice through
unchanged, and a disabled tracer passes even a function through
unchanged. -/
theorem wrapWithName_nonfunction_passthrough_witness :
    TracerImpl.WrapWithName tEnabled (GoObj.sliceObj 3) "xs" locWrap10 locWrap10
      = { result := WrapResult.passthrough (GoObj.sliceObj 3), dispatched := [] }
    ∧ TracerImpl.WrapWithName tDisabled (GoObj.funcObj addGoFunc) "add" locWrap10 locWrap10
      = { result := WrapResult.passthrough (GoObj.funcObj addGoFunc), dispatched := [] } :=
  ⟨(wrapWithName_nonfunction_passthrough tEnabled (GoObj.sliceObj 3) "xs" locWrap10
      locWrap10).1 (fun _ h => GoObj.noConfusion h),
    (wrapWithName_nonfunction_passthrough tDisabled (GoObj.funcObj addGoFunc) "add" locWrap10
      locWrap10).2.1 rfl⟩

/-- C2 (refuted by the code for plain-function wraps): the proxy built
by `wrapFunction` is invariant in the invocation-site locations — its
whole invocation result is the same whatever locations a fresh
resolution would produce, because the closure reuses the locations
captured at wrap time.  Concretely, a function wrapped at line 10 and
invoked from line 99 records source line 10 in both its call and
return events, while the method-wrapper path (`createMethodWrapper`)
records the invocation site, line 99. -/
theorem wrapped_function_location_cached (t : TracerImpl) (w : WrappedFunc)
    (src₁ caller₁ src₂ caller₂ : SourceLocation) (args : List GoVal)
    (env : Env) (k : Nat) :
    callWrapped t w src₁ caller₁ args env k = callWrapped t w src₂ caller₂ args env k
    ∧ ((callWrapped tEnabled wrappedAt10 locCall99 locCall99 [] env0 0).dispatched.map
          Event.sourceLine = [10, 10])
    ∧ ((invokeMethodWrapper tEnabled saveMethod locCall99 locCall99 [] env0 0).dispatched.map
          Event.sourceLine = [99, 99])
    ∧ locWrap10.line = 10 ∧ locCall99.line = 99 :=
  ⟨rfl, rfl, rfl, rfl, rfl⟩

/-- C3 (refuted by the code): a wrapped invocation whose original
fails dispatches no error-kind event.  On an error return the proxy
dispatches a call event and a `FunctionReturn` event (the error value
only rides along in the return values); on a panic it dispatches the
call event only and the panic unwinds with no terminal event.  The
failure itself is propagated unchanged to the direct caller in both
cases. -/
theorem failing_call_gets_no_error_event :
    ((callWrapped tEnabled wrappedFail locCall99 locCall99 [] env0 0).dispatched.map
        Event.type = [EventType.functionCall, EventType.functionReturn])
    ∧ (callWrapped tEnabled wrappedFail locCall99 locCall99 [] env0 0).outcome
        = FuncOutcome.normal [GoVal.vnil, GoVal.verr "boom"]
    ∧ ((callWrapped tEnabled wrappedPanic locCall99 locCall99 [] env0 0).dispatched.map
        Event.type = [EventType.functionCall])
    ∧ (callWrapped tEnabled wrappedPanic locCall99 locCall99 [] env0 0).outcome
        = FuncOutcome.panics "kaboom"
    ∧ decide (EventType.functionReturn = EventType.error) = false
    ∧ decide (EventType.functionCall = EventType.error) = false :=
  ⟨rfl, rfl, rfl, rfl, rfl, rfl⟩

/-- C4 (amended): every successful invocation of a wrapped function
dispatches exactly one call event and one return event, both carrying
the one trace id freshly generated from this invocation's first clock
reading, and the return event's duration is ≥ 0 (monotone clock) and
equals — hence is at least — the elapsed time of the wrapped call
(the interval between the `start` reading and the `time.Since`
reading that bracket it). -/
theorem successful_call_event_pairing (t : TracerImpl) (w : WrappedFunc)
    (invokeSource invokeCaller : SourceLocation) (args results : List GoVal)
    (env : Env) (k : Nat)
    (hmono : ∀ i j : Nat, i ≤ j → env.clock i ≤ env.clock j)
    (hok : w.fn.impl args = FuncOutcome.normal results) :
    ∃ callEvent returnEvent : Event,
      (callWrapped t w invokeSource invokeCaller args env k).dispatched
          = [callEvent, returnEvent]
      ∧ callEvent.type = EventType.functionCall
      ∧ returnEvent.type = EventType.functionReturn
      ∧ callEvent.traceID = generateTraceID (env.clock k)
      ∧ returnEvent.traceID = callEvent.traceID
      ∧ 0 ≤ returnEvent.duration
      ∧ returnEvent.duration = (env.clock (k + 4) : Int) - (env.clock (k + 3) : Int)
      ∧ (callWrapped t w invokeSource invokeCaller args env k).outcome
          = FuncOutcome.normal results := by
  have hle : (env.clock (k + 3) : Int) ≤ (env.clock (k + 4) : Int) := by
    exact_mod_cast hmono (k + 3) (k + 4) (Nat.le_succ _)
  simp only [callWrapped, hok]
  exact ⟨_, _, rfl, rfl, rfl, rfl, rfl, sub_nonneg.mpr hle, rfl, trivial⟩

/-- Witness for C4 at the spec's concrete scenario: `add(2, 3)` under
the per-reading-incrementing clock. -/
theorem successful_call_event_pairing_witness :
    ∃ callEvent returnEvent : Event,
      (callWrapped tEnabled wrappedAt10 locCall99 locCall99 [GoVal.vint 2, GoVal.vint 3]
          env0 0).dispatched = [callEvent, returnEvent]
      ∧ callEvent.type = EventType.functionCall
      ∧ returnEvent.type = EventType.functionReturn
      ∧ callEvent.traceID = generateTraceID (env0.clock 0)
      ∧ returnEvent.traceID = callEvent.traceID
      ∧ 0 ≤ returnEvent.duration
      ∧ returnEvent.duration = (env0.clock 4 : Int) - (env0.clock 3 : Int)
      ∧ (callWrapped tEnabled wrappedAt10 locCall99 locCall99 [GoVal.vint 2, GoVal.vint 3]
          env0 0).outcome = FuncOutcome.normal [GoVal.vint 5] :=
  successful_call_event_pairing tEnabled wrappedAt10 locCall99 locCall99
    [GoVal.vint 2, GoVal.vint 3] [GoVal.vint 5] env0 0 (fun _ _ h => h) rfl

/-- Counterexample to C4's uniqueness parenthetical: under the legal
monotone clock stuck at nanosecond 1000, two distinct invocations of
the same proxy (clock readings 0-6 and 7-13) both get trace id
`"trace_1000"` — the freshly generated trace id is not unique to an
invocation when consecutive nanosecond readings coincide. -/
theorem traceID_reused_across_invocations :
    ((callWrapped tEnabled wrappedAt10 locCall99 locCall99 [] envConst1000 0).dispatched.map
        Event.traceID = ["trace_1000", "trace_1000"])
    ∧ ((callWrapped tEnabled wrappedAt10 locCall99 locCall99 [] envConst1000 7).dispatched.map
        Event.traceID = ["trace_1000", "trace_1000"]) :=
  ⟨rfl, rfl⟩

/-- C8: the package filter accepts iff the component is empty, or no
exclude pattern matches it and (the include list is empty or some
include pattern matches); in particular, with an empty include list
and a non-matching exclude list it accepts every event with a
non-empty component. -/
theorem packageFilter_evaluation_order (f : PackageFilter) (e : Event) :
    (PackageFilter.ShouldTrace f e = true ↔
      (e.component = "" ∨
        ((∀ p ∈ f.excludePatterns, goMatch p e.component = false)
          ∧ (f.includePatterns = []
              ∨ ∃ p ∈ f.includePatterns, goMatch p e.component = true))))
    ∧ (e.component ≠ "" → f.includePatterns = [] →
        (∀ p ∈ f.excludePatterns, goMatch p e.component = false) →
        PackageFilter.ShouldTrace f e = true) := by
  constructor
  · simp only [PackageFilter.ShouldTrace]
    by_cases h1 : e.component = ""
    · rw [if_pos h1]
      exact iff_of_true rfl (Or.inl h1)
    · rw [if_neg h1]
      cases h2 : anyPatternMatches f.excludePatterns e.component with
      | true =>
          rw [if_pos rfl]
          refine iff_of_false (by simp) ?_
          rintro (hc | ⟨hexcl, _⟩)
          · exact h1 hc
          · obtain ⟨p, hp, hm⟩ := (anyPatternMatches_iff _ _).mp h2
            rw [hexcl p hp] at hm
            simp at hm
      | false =>
          rw [if_neg (by simp)]
          by_cases h3 : f.includePatterns.length = 0
          · rw [if_pos h3]
            exact iff_of_true rfl (Or.inr ⟨(anyPatternMatches_eq_false _ _).mp h2,
              Or.inl (List.length_eq_zero.mp h3)⟩)
          · rw [if_neg h3, anyPatternMatches_iff]
            constructor
            · intro hex
              exact Or.inr ⟨(anyPatternMatches_eq_false _ _).mp h2, Or.inr hex⟩
            · rintro (hc | ⟨_, hinc | hex⟩)
              · exact absurd hc h1
              · exact absurd (by simp [hinc]) h3
              · exact hex
  · intro h1 h2 h3
    simp only [PackageFilter.ShouldTrace]
    rw [if_neg h1, (anyPatternMatches_eq_false _ _).mpr h3]
    simp [h2]

/-- Witness for C8: include list empty, exclude pattern `"noisy*"`
does not match component `"db"`, and the filter accepts. -/
theorem packageFilter_evaluation_order_witness :
    PackageFilter.ShouldTrace { includePatterns := [], excludePatterns := ["noisy*"] }
      dbEvent = true :=
  (packageFilter_evaluation_order
      { includePatterns := [], excludePatterns := ["noisy*"] } dbEvent).2
    (by decide) rfl (by decide)

end Lens
